import Mathlib

/-!
# jaco_interaction: `jaco_interactive_manipulation.cpp`

A shallow embedding of the interaction adapter
`JacoInteractiveManipulation` and proofs about its event dispatch.

Conventions of the embedding

* Scalars.  The code only copies floating-point values and writes decimal
  literals; it never computes with them (apart from `iMarker.scale * 1`).
  The embedding is therefore parametric in the scalar type `S`; a literal
  of the source such as `-2.57` is the same literal at type `S`
  (`OfScientific S`, `Neg S`).
* Element conversion.  The joint cache is declared in the header, not in the
  `.cpp` file.  `updateJoints` therefore takes the implicit conversion of
  its assignment as a parameter `cast`; `narrowToFloat` is that conversion
  for a `std::vector<float>` cache.
* Effects.  Every call that leaves the object (topic publish, service call,
  action-client call, marker-server call, log line) is recorded, in program
  order, in a trace of `Action`s.
* Collaborators.  The outcome of each service call is supplied by a
  `Backend` value; all theorems quantify over every backend.
* Exceptions.  `std::vector::at` throws `std::out_of_range`; a function
  that can reach it returns the exception in the `thrown` field of its
  `Outcome`, together with the object state at the moment of the throw.
-/

namespace JacoInteraction

/-! ## Message types (only the fields the source reads or writes) -/

/-- geometry_msgs/Point. -/
structure Point (S : Type) where
  x : S
  y : S
  z : S
deriving DecidableEq

/-- geometry_msgs/Quaternion. -/
structure Quaternion (S : Type) where
  x : S
  y : S
  z : S
  w : S
deriving DecidableEq

/-- geometry_msgs/Pose. -/
structure Pose (S : Type) where
  position : Point S
  orientation : Quaternion S
deriving DecidableEq

/-- geometry_msgs/Vector3. -/
structure Vector3 (S : Type) where
  x : S
  y : S
  z : S
deriving DecidableEq

/-- geometry_msgs/Twist. -/
structure Twist (S : Type) where
  linear : Vector3 S
  angular : Vector3 S
deriving DecidableEq

/-- wpi_jaco_msgs/CartesianCommand. -/
structure CartesianCommand (S : Type) where
  position : Bool
  armCommand : Bool
  fingerCommand : Bool
  repeat_ : Bool
  arm : Twist S
deriving DecidableEq

/-- wpi_jaco_msgs/AngularCommand, the type of `HomeArmGoal.retractPosition`. -/
structure AngularCommand (S : Type) where
  position : Bool
  armCommand : Bool
  fingerCommand : Bool
  repeat_ : Bool
  joints : List S
deriving DecidableEq

/-- wpi_jaco_msgs/HomeArmGoal. -/
structure HomeArmGoal (S : Type) where
  retract : Bool
  retractPosition : AngularCommand S
deriving DecidableEq

/-- wpi_jaco_msgs/ExecuteGraspGoal. -/
structure ExecuteGraspGoal where
  closeGripper : Bool
  limitFingerVelocity : Bool
deriving DecidableEq

/-- wpi_jaco_msgs/ExecutePickupGoal. -/
structure ExecutePickupGoal where
  limitFingerVelocity : Bool
  setLiftVelocity : Bool
deriving DecidableEq

/-- Response of wpi_jaco_msgs/QuaternionToEuler. -/
structure EulerResponse (S : Type) where
  roll : S
  pitch : S
  yaw : S
deriving DecidableEq

/-- sensor_msgs/JointState: the handler reads `position` only. -/
structure JointState (D : Type) where
  position : List D
deriving DecidableEq

/-- visualization_msgs/InteractiveMarkerFeedback.  `event_type` is a `uint8`
and `menu_entry_id` a `uint32`; both are kept as naturals so that values
outside the named constants are events too. -/
structure InteractiveMarkerFeedback (S : Type) where
  event_type : Nat
  marker_name : String
  control_name : String
  menu_entry_id : Nat
  pose : Pose S
deriving DecidableEq

/-- Constant InteractiveMarkerFeedback::KEEP_ALIVE. -/
def KEEP_ALIVE : Nat := 0
/-- Constant InteractiveMarkerFeedback::POSE_UPDATE. -/
def POSE_UPDATE : Nat := 1
/-- Constant InteractiveMarkerFeedback::MENU_SELECT. -/
def MENU_SELECT : Nat := 2
/-- Constant InteractiveMarkerFeedback::BUTTON_CLICK. -/
def BUTTON_CLICK : Nat := 3
/-- Constant InteractiveMarkerFeedback::MOUSE_DOWN. -/
def MOUSE_DOWN : Nat := 4
/-- Constant InteractiveMarkerFeedback::MOUSE_UP. -/
def MOUSE_UP : Nat := 5

/-- visualization_msgs/Marker: the visual of the sphere control. -/
structure Marker (S : Type) where
  type : Nat
  scale : Vector3 S
  r : S
  g : S
  b : S
  a : S
deriving DecidableEq

/-- Constant Marker::SPHERE. -/
def SPHERE : Nat := 2

/-- visualization_msgs/InteractiveMarkerControl. -/
structure InteractiveMarkerControl (S : Type) where
  name : String
  orientation : Quaternion S
  interaction_mode : Nat
  markers : List (Marker S)
deriving DecidableEq

/-- Constant InteractiveMarkerControl::MENU. -/
def MENU : Nat := 1
/-- Constant InteractiveMarkerControl::BUTTON. -/
def BUTTON : Nat := 2
/-- Constant InteractiveMarkerControl::MOVE_AXIS. -/
def MOVE_AXIS : Nat := 3
/-- Constant InteractiveMarkerControl::ROTATE_AXIS. -/
def ROTATE_AXIS : Nat := 5

/-- visualization_msgs/InteractiveMarker. -/
structure InteractiveMarker (S : Type) where
  frame_id : String
  pose : Pose S
  name : String
  description : String
  scale : S
  controls : List (InteractiveMarkerControl S)
deriving DecidableEq

/-! ## Collaborators -/

/-- The three action clients of the adapter. -/
inductive ActionClient where
  | acGrasp
  | acPickup
  | acHome
deriving DecidableEq

/-- One observable call made by the adapter. -/
inductive Action (S : Type) where
  | advertise (topic : String)
  | subscribe (topic : String)
  | serviceClient (service : String)
  | rosInfo (text : String)
  | waitForServer (client : ActionClient)
  | sleep (seconds : S)
  | publish (cmd : CartesianCommand S)
  | callEraseTrajectories
  | callJacoFk (joints : List S)
  | callQuaternionToEuler (orientation : Quaternion S)
  | cancelAllGoals (client : ActionClient)
  | sendGraspGoal (goal : ExecuteGraspGoal)
  | sendPickupGoal (goal : ExecutePickupGoal)
  | sendHomeGoal (goal : HomeArmGoal S)
  | waitForResult (client : ActionClient) (seconds : S)
  | menuApply (marker : String)
  | imInsert (marker : InteractiveMarker S)
  | imSetCallback (marker : String)
  | imSetPose (marker : String) (pose : Pose S)
  | imApplyChanges
deriving DecidableEq

/-- Outcomes of the calls whose result the adapter inspects or waits for.
`ServiceClient::call` returns `false` on failure; a successful call carries
its response.  `homeWaitForResult` is the boolean of
`SimpleActionClient::waitForResult`, which the adapter discards. -/
structure Backend (S : Type) where
  eraseTrajectories : Bool
  jacoFk : List S → Option (Pose S)
  quaternionToEuler : Quaternion S → Option (EulerResponse S)
  homeWaitForResult : S → Bool

/-- The exception thrown by `std::vector::at(index)` on a vector of `size`
elements. -/
inductive Exception where
  | out_of_range (index : Nat) (size : Nat)
deriving DecidableEq

/-! ## The interactive marker server and the menu handler

Third-party collaborators, modelled just far enough to give "the marker's
displayed pose" a meaning: `insert` and `setPose` stage a change per marker
name, `applyChanges` commits every staged change. -/

/-- Kind of a staged change (`UpdateContext::update_type`). -/
inductive UpdateType where
  | FULL_UPDATE
  | POSE_UPDATE
deriving DecidableEq

/-- A staged change for one marker. -/
structure UpdateContext (S : Type) where
  update_type : UpdateType
  int_marker : InteractiveMarker S

/-- State of `interactive_markers::InteractiveMarkerServer`: the committed
markers and the staged changes, both keyed by marker name. -/
structure InteractiveMarkerServer (S : Type) where
  marker_contexts : String → Option (InteractiveMarker S)
  pending_updates : String → Option (UpdateContext S)

/-- A freshly created server. -/
def InteractiveMarkerServer.empty {S : Type} : InteractiveMarkerServer S :=
  { marker_contexts := fun _ => none, pending_updates := fun _ => none }

/-- Server call `insert(int_marker)`: stage a full update under the marker's
name. -/
def InteractiveMarkerServer.insert {S : Type} (srv : InteractiveMarkerServer S)
    (m : InteractiveMarker S) : InteractiveMarkerServer S :=
  { srv with
    pending_updates := fun n =>
      if n = m.name then some { update_type := UpdateType.FULL_UPDATE, int_marker := m }
      else srv.pending_updates n }

/-- Server call `setPose(name, pose)`: returns `false` and changes nothing
when the marker is neither committed nor staged as a full update; otherwise
stages the pose (inside the staged full update when there is one). -/
def InteractiveMarkerServer.setPose {S : Type} (srv : InteractiveMarkerServer S)
    (name : String) (pose : Pose S) : InteractiveMarkerServer S × Bool :=
  match srv.pending_updates name, srv.marker_contexts name with
  | some u, ctx =>
    match u.update_type, ctx with
    | UpdateType.FULL_UPDATE, _ =>
      ({ srv with
         pending_updates := fun n =>
           if n = name then some { u with int_marker := { u.int_marker with pose := pose } }
           else srv.pending_updates n }, true)
    | UpdateType.POSE_UPDATE, some _ =>
      ({ srv with
         pending_updates := fun n =>
           if n = name then some { u with int_marker := { u.int_marker with pose := pose } }
           else srv.pending_updates n }, true)
    | UpdateType.POSE_UPDATE, none => (srv, false)
  | none, some m =>
    ({ srv with
       pending_updates := fun n =>
         if n = name then
           some { update_type := UpdateType.POSE_UPDATE, int_marker := { m with pose := pose } }
         else srv.pending_updates n }, true)
  | none, none => (srv, false)

/-- Server call `applyChanges()`: commit every staged change and clear the
staging area.  A full update replaces the marker; a pose update changes the
pose of a committed marker. -/
def InteractiveMarkerServer.applyChanges {S : Type} (srv : InteractiveMarkerServer S) :
    InteractiveMarkerServer S :=
  { marker_contexts := fun n =>
      match srv.pending_updates n with
      | none => srv.marker_contexts n
      | some u =>
        match u.update_type with
        | UpdateType.FULL_UPDATE => some u.int_marker
        | UpdateType.POSE_UPDATE =>
          (srv.marker_contexts n).map (fun m => { m with pose := u.int_marker.pose })
    pending_updates := fun _ => none }

/-- The pose the server displays for a marker: the pose of the committed
marker of that name. -/
def InteractiveMarkerServer.displayedPose {S : Type} (srv : InteractiveMarkerServer S)
    (name : String) : Option (Pose S) :=
  (srv.marker_contexts name).map (fun m => m.pose)

/-- An entry of `interactive_markers::MenuHandler`: its handle, the handle of
its parent (0 for a top-level entry) and its title. -/
structure MenuEntry where
  handle : Nat
  parent : Nat
  title : String
deriving DecidableEq

/-- State of the menu handler: handles are handed out from 1 upwards. -/
structure MenuHandler where
  entries : List MenuEntry
deriving DecidableEq

/-- Menu call `insert(parent, title, callback)`; returns the new handle. -/
def MenuHandler.insert (h : MenuHandler) (parent : Nat) (title : String) : MenuHandler × Nat :=
  let handle := h.entries.length + 1
  ({ entries := h.entries ++ [{ handle := handle, parent := parent, title := title }] }, handle)

/-! ## The adapter object -/

/-- Data members of `JacoInteractiveManipulation` that carry state. -/
structure JacoInteractiveManipulation (S : Type) where
  joints : List S
  lockPose : Bool
  imServer : InteractiveMarkerServer S
  menuHandler : MenuHandler

/-- Result of running a member function: the object afterwards, the calls it
made in order, and the exception that ended it, if any. -/
structure Outcome (S : Type) where
  jim : JacoInteractiveManipulation S
  trace : List (Action S)
  thrown : Option Exception

/-! ## `updateJoints` -/

/-- The loop `for (i = ...; i < 6; i++) joints.at(i) = msg->position.at(i);`
with `n` iterations left, starting at index `i`.  The right-hand `at` is
evaluated first, then the left-hand one; `cast` is the implicit conversion
from the message's element type to the cache's. -/
def updateJointsLoop {D S : Type} (cast : D → S) (position : List D) :
    Nat → Nat → List S → List S × Option Exception
  | 0, _, joints => (joints, none)
  | n + 1, i, joints =>
    match position[i]? with
    | none => (joints, some (Exception.out_of_range i position.length))
    | some v =>
      if i < joints.length then
        updateJointsLoop cast position n (i + 1) (joints.set i (cast v))
      else
        (joints, some (Exception.out_of_range i joints.length))

/-- Member function `JacoInteractiveManipulation::updateJoints(msg)`. -/
def JacoInteractiveManipulation.updateJoints {D S : Type} (cast : D → S)
    (self : JacoInteractiveManipulation S) (msg : JointState D) : Outcome S :=
  let r := updateJointsLoop cast msg.position 6 0 self.joints
  { jim := { self with joints := r.1 }, trace := [], thrown := r.2 }

/-! ## `sendStopCommand` -/

/-- Member function `JacoInteractiveManipulation::sendStopCommand()`. -/
def JacoInteractiveManipulation.sendStopCommand {S : Type} [OfScientific S]
    (env : Backend S) (self : JacoInteractiveManipulation S) : Outcome S :=
  let cmd : CartesianCommand S :=
    { position := false
      armCommand := true
      fingerCommand := false
      repeat_ := true
      arm := { linear := { x := 0.0, y := 0.0, z := 0.0 }
               angular := { x := 0.0, y := 0.0, z := 0.0 } } }
  if env.eraseTrajectories then
    { jim := self
      trace := [Action.publish cmd, Action.callEraseTrajectories]
      thrown := none }
  else
    { jim := self
      trace := [Action.publish cmd, Action.callEraseTrajectories,
                Action.rosInfo "Could not call erase trajectories service..."]
      thrown := none }

/-! ## `makeHandMarker` and `updateMarkerPosition` -/

/-- The loop `for (i = ...; i < 6; i++) fkSrv.request.joints.push_back(joints.at(i));`
with `n` iterations left, starting at index `i`, `req` being the request
built so far. -/
def fkRequestLoop {S : Type} (joints : List S) :
    Nat → Nat → List S → Except Exception (List S)
  | 0, _, req => Except.ok req
  | n + 1, i, req =>
    match joints[i]? with
    | none => Except.error (Exception.out_of_range i joints.length)
    | some v => fkRequestLoop joints n (i + 1) (req ++ [v])

/-- The marker description built by `makeHandMarker` around a given pose:
the sphere button, the six axis controls and the menu control. -/
def handMarker {S : Type} [OfScientific S] [Mul S] (pose : Pose S) : InteractiveMarker S :=
  let scale : S := 0.2
  let sphereMarker : Marker S :=
    { type := SPHERE
      scale := { x := scale * 1.0, y := scale * 1.0, z := scale * 1.0 }
      r := 0.5, g := 0.5, b := 0.5, a := 0.0 }
  let sphereControl : InteractiveMarkerControl S :=
    { name := "jaco_hand_origin_marker"
      orientation := { x := 0.0, y := 0.0, z := 0.0, w := 0.0 }
      interaction_mode := BUTTON
      markers := [sphereMarker] }
  let axis (name : String) (mode : Nat) (x y z : S) : InteractiveMarkerControl S :=
    { name := name
      orientation := { x := x, y := y, z := z, w := 1.0 }
      interaction_mode := mode
      markers := [] }
  let menuControl : InteractiveMarkerControl S :=
    { name := "jaco_hand_menu"
      orientation := { x := 0.0, y := 0.0, z := 0.0, w := 0.0 }
      interaction_mode := MENU
      markers := [] }
  { frame_id := "jaco_link_base"
    pose := pose
    name := "jaco_hand_marker"
    description := "JACO Hand Control"
    scale := scale
    controls :=
      [ sphereControl,
        axis "rotate_x" ROTATE_AXIS 1.0 0.0 0.0, axis "move_x" MOVE_AXIS 1.0 0.0 0.0,
        axis "rotate_y" ROTATE_AXIS 0.0 1.0 0.0, axis "move_y" MOVE_AXIS 0.0 1.0 0.0,
        axis "rotate_z" ROTATE_AXIS 0.0 0.0 1.0, axis "move_z" MOVE_AXIS 0.0 0.0 1.0,
        menuControl ] }

/-- The six `menuHandler.insert` calls of `makeHandMarker`: "Fingers" with
the sub-entries "Grasp" and "Release", then "Pickup", "Home", "Retract". -/
def handMenu (h : MenuHandler) : MenuHandler :=
  let r1 := h.insert 0 "Fingers"
  let fingersSubMenuHandle := r1.2
  let r2 := r1.1.insert fingersSubMenuHandle "Grasp"
  let r3 := r2.1.insert fingersSubMenuHandle "Release"
  let r4 := r3.1.insert 0 "Pickup"
  let r5 := r4.1.insert 0 "Home"
  let r6 := r5.1.insert 0 "Retract"
  r6.1

/-- Member function `JacoInteractiveManipulation::makeHandMarker()`.  `menuHandler.apply`
re-inserts the staged marker with its menu entries attached; the marker's
pose is not touched by it, so only the call is recorded. -/
def JacoInteractiveManipulation.makeHandMarker {S : Type} [OfScientific S] [Mul S]
    (env : Backend S) (self : JacoInteractiveManipulation S) : Outcome S :=
  match fkRequestLoop self.joints 6 0 [] with
  | Except.error e => { jim := self, trace := [], thrown := some e }
  | Except.ok req =>
    let pose : Pose S :=
      match env.jacoFk req with
      | some handPose => handPose
      | none =>
        { position := { x := 0.0, y := 0.0, z := 0.0 }
          orientation := { x := 0.0, y := 0.0, z := 0.0, w := 1.0 } }
    let iMarker := handMarker pose
    { jim := { self with
               menuHandler := handMenu self.menuHandler
               imServer := self.imServer.insert iMarker }
      trace := [Action.callJacoFk req, Action.imInsert iMarker,
                Action.imSetCallback iMarker.name, Action.menuApply iMarker.name]
      thrown := none }

/-- Member function `JacoInteractiveManipulation::updateMarkerPosition()`. -/
def JacoInteractiveManipulation.updateMarkerPosition {S : Type}
    (env : Backend S) (self : JacoInteractiveManipulation S) : Outcome S :=
  match fkRequestLoop self.joints 6 0 [] with
  | Except.error e => { jim := self, trace := [], thrown := some e }
  | Except.ok req =>
    match env.jacoFk req with
    | some handPose =>
      { jim := { self with
                 imServer := (self.imServer.setPose "jaco_hand_marker" handPose).1.applyChanges }
        trace := [Action.callJacoFk req, Action.imSetPose "jaco_hand_marker" handPose,
                  Action.imApplyChanges]
        thrown := none }
    | none =>
      { jim := self
        trace := [Action.callJacoFk req,
                  Action.rosInfo "Failed to call forward kinematics service"]
        thrown := none }

/-! ## `processHandMarkerFeedback` -/

/-- The retract joint target written by the "Retract" menu branch:
`joints.resize(6)` on the empty vector, then the six element assignments. -/
def retractJoints {S : Type} [OfScientific S] [Neg S] : List S :=
  (((((((List.replicate 6 (0.0 : S)).set 0 (-2.57)).set 1 1.39).set 2 0.377).set 3
    (-0.084)).set 4 0.515).set 5 (-1.745))

/-- A default-constructed wpi_jaco_msgs/AngularCommand. -/
def AngularCommand.default {S : Type} : AngularCommand S :=
  { position := false, armCommand := false, fingerCommand := false, repeat_ := false,
    joints := [] }

/-- The `switch (feedback->event_type)` statement of
`processHandMarkerFeedback`, everything before the final `applyChanges`. -/
def dispatchHandMarkerFeedback {S : Type} [OfScientific S] [Neg S]
    (env : Backend S) (self : JacoInteractiveManipulation S)
    (feedback : InteractiveMarkerFeedback S) : Outcome S :=
  if feedback.event_type = BUTTON_CLICK then
    if feedback.marker_name = "jaco_hand_marker" then
      JacoInteractiveManipulation.sendStopCommand env { self with lockPose := true }
    else
      { jim := self, trace := [], thrown := none }
  else if feedback.event_type = MENU_SELECT then
    if feedback.marker_name = "jaco_hand_marker" then
      if feedback.menu_entry_id = 2 then
        let graspGoal : ExecuteGraspGoal := { closeGripper := true, limitFingerVelocity := false }
        { jim := self, trace := [Action.sendGraspGoal graspGoal], thrown := none }
      else if feedback.menu_entry_id = 3 then
        let graspGoal : ExecuteGraspGoal := { closeGripper := false, limitFingerVelocity := false }
        { jim := self, trace := [Action.sendGraspGoal graspGoal], thrown := none }
      else if feedback.menu_entry_id = 4 then
        let pickupGoal : ExecutePickupGoal :=
          { limitFingerVelocity := false, setLiftVelocity := false }
        { jim := self, trace := [Action.sendPickupGoal pickupGoal], thrown := none }
      else if feedback.menu_entry_id = 5 then
        let homeGoal : HomeArmGoal S :=
          { retract := false, retractPosition := AngularCommand.default }
        { jim := self
          trace := [Action.cancelAllGoals ActionClient.acGrasp,
                    Action.cancelAllGoals ActionClient.acPickup,
                    Action.sendHomeGoal homeGoal,
                    Action.waitForResult ActionClient.acHome 10.0]
          thrown := none }
      else if feedback.menu_entry_id = 6 then
        let homeGoal : HomeArmGoal S :=
          { retract := true
            retractPosition :=
              { position := true, armCommand := true, fingerCommand := false, repeat_ := false,
                joints := retractJoints } }
        { jim := self
          trace := [Action.cancelAllGoals ActionClient.acGrasp,
                    Action.cancelAllGoals ActionClient.acPickup,
                    Action.sendHomeGoal homeGoal,
                    Action.waitForResult ActionClient.acHome 15.0]
          thrown := none }
      else
        { jim := self, trace := [], thrown := none }
    else
      { jim := self, trace := [], thrown := none }
  else if feedback.event_type = POSE_UPDATE then
    if feedback.marker_name = "jaco_hand_marker"
        ∧ feedback.control_name ≠ "jaco_hand_origin_marker" then
      if ¬ self.lockPose then
        let calls : List (Action S) :=
          [Action.cancelAllGoals ActionClient.acGrasp,
           Action.cancelAllGoals ActionClient.acPickup,
           Action.callQuaternionToEuler feedback.pose.orientation]
        match env.quaternionToEuler feedback.pose.orientation with
        | some response =>
          let cmd : CartesianCommand S :=
            { position := true
              armCommand := true
              fingerCommand := false
              repeat_ := false
              arm := { linear := { x := feedback.pose.position.x
                                   y := feedback.pose.position.y
                                   z := feedback.pose.position.z }
                       angular := { x := response.roll
                                    y := response.pitch
                                    z := response.yaw } } }
          { jim := self, trace := calls ++ [Action.publish cmd], thrown := none }
        | none =>
          { jim := self
            trace := calls ++
              [Action.rosInfo
                "Quaternion to Euler conversion service failed, could not send pose update"]
            thrown := none }
      else
        { jim := self, trace := [], thrown := none }
    else
      { jim := self, trace := [], thrown := none }
  else if feedback.event_type = MOUSE_DOWN then
    { jim := { self with lockPose := false }, trace := [], thrown := none }
  else if feedback.event_type = MOUSE_UP then
    if feedback.marker_name = "jaco_hand_marker" then
      JacoInteractiveManipulation.sendStopCommand env { self with lockPose := true }
    else
      { jim := self, trace := [], thrown := none }
  else
    { jim := self, trace := [], thrown := none }

/-- Member function `JacoInteractiveManipulation::processHandMarkerFeedback(feedback)`: the
switch, then `imServer->applyChanges()`. -/
def JacoInteractiveManipulation.processHandMarkerFeedback {S : Type} [OfScientific S] [Neg S]
    (env : Backend S) (self : JacoInteractiveManipulation S)
    (feedback : InteractiveMarkerFeedback S) : Outcome S :=
  let r := dispatchHandMarkerFeedback env self feedback
  match r.thrown with
  | some e => { jim := r.jim, trace := r.trace, thrown := some e }
  | none =>
    { jim := { r.jim with imServer := r.jim.imServer.applyChanges }
      trace := r.trace ++ [Action.imApplyChanges]
      thrown := none }

/-! ## The constructor -/

/-- The constructor `JacoInteractiveManipulation::JacoInteractiveManipulation()`
(a declaration cannot carry the name of its own namespace).  The waits
for the three action servers are recorded as calls; a server that never
comes up (the constructor then never returns) is outside the model. -/
def JacoInteractiveManipulation.construct {S : Type}
    [OfScientific S] [Mul S] (env : Backend S) : Outcome S :=
  let self : JacoInteractiveManipulation S :=
    { joints := List.replicate 6 0.0
      lockPose := false
      imServer := InteractiveMarkerServer.empty
      menuHandler := { entries := [] } }
  let setup : List (Action S) :=
    [Action.advertise "jaco_arm/cartesian_cmd",
     Action.subscribe "jaco_arm/joint_states",
     Action.serviceClient "jaco_arm/erase_trajectories",
     Action.serviceClient "jaco_arm/kinematics/fk",
     Action.serviceClient "jaco_conversions/quaternion_to_euler",
     Action.rosInfo "Waiting for grasp, pickup, and home arm action servers...",
     Action.waitForServer ActionClient.acGrasp,
     Action.waitForServer ActionClient.acPickup,
     Action.waitForServer ActionClient.acHome,
     Action.rosInfo "Finished waiting for action servers",
     Action.sleep 0.1]
  let r := JacoInteractiveManipulation.makeHandMarker env self
  match r.thrown with
  | some e => { jim := r.jim, trace := setup ++ r.trace, thrown := some e }
  | none =>
    { jim := { r.jim with imServer := r.jim.imServer.applyChanges }
      trace := setup ++ r.trace ++ [Action.imApplyChanges]
      thrown := none }

/-! ## Observations on traces -/

/-- The Cartesian commands published in a trace, in order. -/
def publishedCommands {S : Type} (t : List (Action S)) : List (CartesianCommand S) :=
  t.filterMap (fun a => match a with
    | Action.publish cmd => some cmd
    | _ => none)

/-- The grasp goals sent in a trace, in order. -/
def graspGoals {S : Type} (t : List (Action S)) : List ExecuteGraspGoal :=
  t.filterMap (fun a => match a with
    | Action.sendGraspGoal g => some g
    | _ => none)

/-- Number of `applyChanges` calls in a trace. -/
def applyChangesCount {S : Type} (t : List (Action S)) : Nat :=
  (t.filter (fun a => match a with
    | Action.imApplyChanges => true
    | _ => false)).length

/-- Whether an action is a cancel request, a pickup or home goal, or a
Cartesian command. -/
def isCancelPickupHomeOrCommand {S : Type} : Action S → Bool
  | Action.cancelAllGoals _ => true
  | Action.sendPickupGoal _ => true
  | Action.sendHomeGoal _ => true
  | Action.publish _ => true
  | _ => false

/-! ## Sample inputs -/

/-- A sample object: six cached joint angles, unlocked, nothing registered. -/
def sampleJim : JacoInteractiveManipulation Rat :=
  { joints := [1, 2, 3, 4, 5, 6]
    lockPose := false
    imServer := InteractiveMarkerServer.empty
    menuHandler := { entries := [] } }

/-- A sample pose. -/
def samplePose : Pose Rat :=
  { position := { x := 1, y := 2, z := 3 }
    orientation := { x := 0, y := 0, z := 0, w := 1 } }

/-- A sample backend on which every call succeeds. -/
def sampleBackend : Backend Rat :=
  { eraseTrajectories := true
    jacoFk := fun _ => some samplePose
    quaternionToEuler := fun q => some { roll := q.x, pitch := q.y, yaw := q.z }
    homeWaitForResult := fun _ => true }

/-- A sample backend on which every call fails. -/
def failingBackend : Backend Rat :=
  { eraseTrajectories := false
    jacoFk := fun _ => none
    quaternionToEuler := fun _ => none
    homeWaitForResult := fun _ => false }

/-- A sample drag event on the `move_x` control of the hand marker. -/
def samplePoseUpdate : InteractiveMarkerFeedback Rat :=
  { event_type := POSE_UPDATE
    marker_name := "jaco_hand_marker"
    control_name := "move_x"
    menu_entry_id := 0
    pose := samplePose }

/-- A sample selection of the menu entry "Retract" of the hand marker. -/
def sampleRetractSelect : InteractiveMarkerFeedback Rat :=
  { event_type := MENU_SELECT
    marker_name := "jaco_hand_marker"
    control_name := "jaco_hand_menu"
    menu_entry_id := 6
    pose := samplePose }

/-- A sample selection of the menu entry "Grasp" of the hand marker. -/
def sampleGraspSelect : InteractiveMarkerFeedback Rat :=
  { event_type := MENU_SELECT
    marker_name := "jaco_hand_marker"
    control_name := "jaco_hand_menu"
    menu_entry_id := 2
    pose := samplePose }

/-- The object right after construction against the sample backend. -/
def sampleReadyJim : JacoInteractiveManipulation Rat :=
  (JacoInteractiveManipulation.construct sampleBackend).jim

/-! ## Narrowing to single precision

`updateJoints` assigns a `float64` position of the message to a cache entry.
The cache is declared in the header `jaco_interactive_manipulation.h`; when
its element type is `float`, the assignment converts the value. -/

/-- An IEEE 754 binary floating-point value, by its exact value:
`finite s m e` is `m * 2 ^ e`, negated when `s` is true, kept with `m` odd
(or `m = 0`, `e = 0`) so that equal values are equal terms. -/
inductive FloatingValue where
  | finite (negative : Bool) (mantissa : Nat) (exponent : Int)
  | infinite (negative : Bool)
  | nan
deriving DecidableEq

/-- Number of binary digits of `n`, with `fuel` halvings allowed. -/
def bitLengthAux : Nat → Nat → Nat
  | 0, _ => 0
  | fuel + 1, n => if n = 0 then 0 else bitLengthAux fuel (n / 2) + 1

/-- Number of binary digits of `n` (0 for 0). -/
def bitLength (n : Nat) : Nat := bitLengthAux n n

/-- Remove trailing zero bits of a mantissa, raising the exponent. -/
def stripZeroBits : Nat → Nat → Int → Nat × Int
  | 0, m, e => (m, e)
  | fuel + 1, m, e =>
    if m ≠ 0 ∧ m % 2 = 0 then stripZeroBits fuel (m / 2) (e + 1) else (m, e)

/-- Whether a value is a `double`: at most 53 significant bits, no bit below
`2 ^ (-1074)`, magnitude below `2 ^ 1024`. -/
def isDouble : FloatingValue → Bool
  | FloatingValue.nan => true
  | FloatingValue.infinite _ => true
  | FloatingValue.finite _ m e =>
    decide (bitLength m ≤ 53 ∧ (m = 0 ∨ (-1074 ≤ e ∧ (bitLength m : Int) + e ≤ 1024)))

/-- Modelled from the spec: the cache is "an ordered sequence of 6 scalar
joint positions"; its declaration is in the missing header.  This is the
conversion the assignment `joints.at(i) = msg->position.at(i)` performs when
the cache is a `std::vector<float>`: the C++ conversion from `double` to
`float`, round to nearest with ties to even, 24 significant bits, no bit
below `2 ^ (-149)`, infinity from `2 ^ 128` on. -/
def narrowToFloat : FloatingValue → FloatingValue
  | FloatingValue.nan => FloatingValue.nan
  | FloatingValue.infinite s => FloatingValue.infinite s
  | FloatingValue.finite s m e =>
    let k : Nat := (max ((bitLength m : Int) - 24) (-149 - e)).toNat
    let d : Nat := 2 ^ k
    let q : Nat := m / d
    let r : Nat := m % d
    let rounded : Nat := if d < 2 * r ∨ (2 * r = d ∧ q % 2 = 1) then q + 1 else q
    if rounded = 0 then FloatingValue.finite s 0 0
    else if 128 < (bitLength rounded : Int) + (e + k) then FloatingValue.infinite s
    else
      let n := stripZeroBits rounded rounded (e + k)
      FloatingValue.finite s n.1 n.2

/-- The `double` nearest to 0.1, bit pattern `0x3FB999999999999A`. -/
def tenthAsDouble : FloatingValue :=
  FloatingValue.finite false 3602879701896397 (-55)

/-- The `float` nearest to 0.1, bit pattern `0x3DCCCCCD`
(0.100000001490116...). -/
def tenthAsFloat : FloatingValue :=
  FloatingValue.finite false 13421773 (-27)

/-- A single-precision cache as the constructor leaves it: six zeros. -/
def sampleFloatJim : JacoInteractiveManipulation FloatingValue :=
  { joints := List.replicate 6 (FloatingValue.finite false 0 0)
    lockPose := false
    imServer := InteractiveMarkerServer.empty
    menuHandler := { entries := [] } }

/-- A joint-state reading with all six joints at 0.1 rad. -/
def sampleTenthReading : JointState FloatingValue :=
  { position := List.replicate 6 tenthAsDouble }

/-! ## Theorems -/

/-- A list of length six is six elements. -/
theorem list_length_six {α : Type} (l : List α) (h : l.length = 6) :
    ∃ a b c d e f, l = [a, b, c, d, e, f] := by
  rcases l with _ | ⟨a, _ | ⟨b, _ | ⟨c, _ | ⟨d, _ | ⟨e, _ | ⟨f, _ | ⟨g, t⟩⟩⟩⟩⟩⟩⟩ <;>
    simp at h
  exact ⟨a, b, c, d, e, f, rfl⟩

/-- A list of length at least six starts with six elements. -/
theorem list_length_ge_six {α : Type} (l : List α) (h : 6 ≤ l.length) :
    ∃ a b c d e f t, l = a :: b :: c :: d :: e :: f :: t := by
  rcases l with _ | ⟨a, _ | ⟨b, _ | ⟨c, _ | ⟨d, _ | ⟨e, _ | ⟨f, t⟩⟩⟩⟩⟩⟩ <;>
    simp at h
  exact ⟨a, b, c, d, e, f, t, rfl⟩

/-- C7.  On a six-entry cache and a reading with at least six positions,
`updateJoints` returns normally, the cache still has six entries, and entry
`i` is the reading's position `i` (converted to the cache's element type)
for every `i < 6`; the other members are untouched and nothing is sent. -/
theorem updateJoints_overwrites_six {D S : Type} (cast : D → S)
    (self : JacoInteractiveManipulation S) (msg : JointState D)
    (hcache : self.joints.length = 6) (hmsg : 6 ≤ msg.position.length) :
    (self.updateJoints cast msg).thrown = none
    ∧ (self.updateJoints cast msg).jim.joints.length = 6
    ∧ (∀ i, i < 6 → ∃ v, msg.position[i]? = some v
        ∧ (self.updateJoints cast msg).jim.joints[i]? = some (cast v))
    ∧ (self.updateJoints cast msg).jim.lockPose = self.lockPose
    ∧ (self.updateJoints cast msg).trace = [] := by
  obtain ⟨a, b, c, d, e, f, hj⟩ := list_length_six self.joints hcache
  obtain ⟨p0, p1, p2, p3, p4, p5, t, hp⟩ := list_length_ge_six msg.position hmsg
  refine ⟨?_, ?_, ?_, rfl, rfl⟩
  · simp [JacoInteractiveManipulation.updateJoints, updateJointsLoop, hj, hp]
  · simp [JacoInteractiveManipulation.updateJoints, updateJointsLoop, hj, hp]
  · intro i hi
    interval_cases i <;>
      simp [JacoInteractiveManipulation.updateJoints, updateJointsLoop, hj, hp]

/-- C7, at a single-precision cache and a reading of six `double`s 0.1. -/
theorem updateJoints_overwrites_six_witness :
    sampleFloatJim.joints.length = 6
    ∧ 6 ≤ sampleTenthReading.position.length
    ∧ (sampleFloatJim.updateJoints narrowToFloat sampleTenthReading).thrown = none
    ∧ (sampleFloatJim.updateJoints narrowToFloat sampleTenthReading).jim.joints.length = 6
    ∧ (∀ i, i < 6 → ∃ v, sampleTenthReading.position[i]? = some v
        ∧ (sampleFloatJim.updateJoints narrowToFloat sampleTenthReading).jim.joints[i]?
            = some (narrowToFloat v))
    ∧ (sampleFloatJim.updateJoints narrowToFloat sampleTenthReading).jim.lockPose
        = sampleFloatJim.lockPose
    ∧ (sampleFloatJim.updateJoints narrowToFloat sampleTenthReading).trace = [] :=
  ⟨by decide, by decide,
    updateJoints_overwrites_six narrowToFloat sampleFloatJim sampleTenthReading
      (by decide) (by decide)⟩

/-- C7, counterexample to the entries being equal to the positions.  With a
single-precision cache and the reading of six `double`s 0.1, `updateJoints`
returns normally and every inspected hypothesis of C7 holds, but entry 0 is
the `float` nearest to 0.1, which is not the reading's position 0. -/
theorem updateJoints_float_cache_differs :
    sampleFloatJim.joints.length = 6
    ∧ 6 ≤ sampleTenthReading.position.length
    ∧ (∀ v ∈ sampleTenthReading.position, isDouble v = true)
    ∧ (sampleFloatJim.updateJoints narrowToFloat sampleTenthReading).thrown = none
    ∧ (sampleFloatJim.updateJoints narrowToFloat sampleTenthReading).jim.joints.length = 6
    ∧ sampleTenthReading.position[0]? = some tenthAsDouble
    ∧ (sampleFloatJim.updateJoints narrowToFloat sampleTenthReading).jim.joints[0]?
        = some tenthAsFloat
    ∧ ¬ (∀ i, i < 6 →
          (sampleFloatJim.updateJoints narrowToFloat sampleTenthReading).jim.joints[i]?
            = sampleTenthReading.position[i]?) := by
  refine ⟨by decide, by decide, by decide, by decide, by decide, by decide, by decide, ?_⟩
  intro h
  exact absurd (h 0 (by decide)) (by decide)

/-- C10.  On a six-entry cache and a reading with `k < 6` positions,
`updateJoints` ends with the out-of-range exception of `position.at(k)`;
at that point entries `0..k-1` of the cache hold the reading's values and
entries `k..5` their previous values. -/
theorem updateJoints_short_reading {D S : Type} (cast : D → S)
    (self : JacoInteractiveManipulation S) (msg : JointState D) (k : Nat)
    (hcache : self.joints.length = 6) (hk : msg.position.length = k) (hlt : k < 6) :
    (self.updateJoints cast msg).thrown = some (Exception.out_of_range k k)
    ∧ (self.updateJoints cast msg).jim.joints.length = 6
    ∧ (∀ i, i < k → ∃ v, msg.position[i]? = some v
        ∧ (self.updateJoints cast msg).jim.joints[i]? = some (cast v))
    ∧ (∀ i, k ≤ i → i < 6 →
        (self.updateJoints cast msg).jim.joints[i]? = self.joints[i]?) := by
  obtain ⟨a, b, c, d, e, f, hj⟩ := list_length_six self.joints hcache
  subst hk
  rcases msg with ⟨pos⟩
  rcases pos with _ | ⟨p0, _ | ⟨p1, _ | ⟨p2, _ | ⟨p3, _ | ⟨p4, _ | ⟨p5, t⟩⟩⟩⟩⟩⟩
  all_goals simp only [List.length_cons, List.length_nil] at hlt
  all_goals try omega
  all_goals
    simp only [JacoInteractiveManipulation.updateJoints, hj]
    refine ⟨by simp [updateJointsLoop], by simp [updateJointsLoop], ?_, ?_⟩
    · intro i hi
      simp only [List.length_cons, List.length_nil] at hi
      interval_cases i <;> simp [updateJointsLoop]
    · intro i h1 h2
      simp only [List.length_cons, List.length_nil] at h1
      interval_cases i <;> simp [updateJointsLoop]

/-- C10, at a sample reading of two positions. -/
theorem updateJoints_short_reading_witness :
    (sampleJim.updateJoints (fun z : Int => (z : Rat)) ⟨[7, 8]⟩).thrown
      = some (Exception.out_of_range 2 2)
    ∧ (sampleJim.updateJoints (fun z : Int => (z : Rat)) ⟨[7, 8]⟩).jim.joints.length = 6
    ∧ (∀ i, i < 2 → ∃ v, ([7, 8] : List Int)[i]? = some v
        ∧ (sampleJim.updateJoints (fun z : Int => (z : Rat)) ⟨[7, 8]⟩).jim.joints[i]?
            = some ((v : Int) : Rat))
    ∧ (∀ i, 2 ≤ i → i < 6 →
        (sampleJim.updateJoints (fun z : Int => (z : Rat)) ⟨[7, 8]⟩).jim.joints[i]?
          = sampleJim.joints[i]?) :=
  updateJoints_short_reading (fun z : Int => (z : Rat)) sampleJim ⟨[7, 8]⟩ 2
    (by rfl) (by rfl) (by decide)

/-! ### `sendStopCommand` -/

/-- C3.  Whatever the erase-trajectories call returns, `sendStopCommand`
publishes exactly one Cartesian command, the zero-velocity repeat command;
the publish is the first call and the erase-trajectories request the second;
the object is left as it was and no exception is raised.  A failing call
only adds the log line. -/
theorem sendStopCommand_publishes_zero_velocity {S : Type} [OfScientific S]
    (env : Backend S) (self : JacoInteractiveManipulation S) :
    publishedCommands (self.sendStopCommand env).trace =
        [({ position := false, armCommand := true, fingerCommand := false, repeat_ := true,
            arm := { linear := { x := 0.0, y := 0.0, z := 0.0 },
                     angular := { x := 0.0, y := 0.0, z := 0.0 } } } : CartesianCommand S)]
    ∧ (self.sendStopCommand env).trace =
        ([Action.publish
          { position := false, armCommand := true, fingerCommand := false, repeat_ := true,
            arm := { linear := { x := 0.0, y := 0.0, z := 0.0 },
                     angular := { x := 0.0, y := 0.0, z := 0.0 } } },
          Action.callEraseTrajectories] : List (Action S))
        ++ (if env.eraseTrajectories then []
            else [Action.rosInfo "Could not call erase trajectories service..."])
    ∧ (self.sendStopCommand env).jim = self
    ∧ (self.sendStopCommand env).thrown = none := by
  unfold JacoInteractiveManipulation.sendStopCommand
  cases h : env.eraseTrajectories <;> simp [publishedCommands]

/-! ### `processHandMarkerFeedback` -/

/-- The switch never raises an exception. -/
theorem dispatch_thrown {S : Type} [OfScientific S] [Neg S]
    (env : Backend S) (self : JacoInteractiveManipulation S)
    (feedback : InteractiveMarkerFeedback S) :
    (dispatchHandMarkerFeedback env self feedback).thrown = none := by
  unfold dispatchHandMarkerFeedback JacoInteractiveManipulation.sendStopCommand
  split_ifs
  all_goals first | rfl | (split <;> rfl)

/-- The switch does not call `applyChanges`. -/
theorem dispatch_applyChangesCount {S : Type} [OfScientific S] [Neg S]
    (env : Backend S) (self : JacoInteractiveManipulation S)
    (feedback : InteractiveMarkerFeedback S) :
    applyChangesCount (dispatchHandMarkerFeedback env self feedback).trace = 0 := by
  unfold dispatchHandMarkerFeedback JacoInteractiveManipulation.sendStopCommand
  split_ifs
  all_goals first | rfl | (split <;> rfl)

/-- The switch leaves the marker server, the joint cache and the menu
handler alone. -/
theorem dispatch_frame {S : Type} [OfScientific S] [Neg S]
    (env : Backend S) (self : JacoInteractiveManipulation S)
    (feedback : InteractiveMarkerFeedback S) :
    (dispatchHandMarkerFeedback env self feedback).jim.imServer = self.imServer
    ∧ (dispatchHandMarkerFeedback env self feedback).jim.joints = self.joints
    ∧ (dispatchHandMarkerFeedback env self feedback).jim.menuHandler = self.menuHandler := by
  unfold dispatchHandMarkerFeedback JacoInteractiveManipulation.sendStopCommand
  split_ifs
  all_goals first | exact ⟨rfl, rfl, rfl⟩ | (split <;> exact ⟨rfl, rfl, rfl⟩)

/-- Unfolding: `processHandMarkerFeedback` is the switch followed by `applyChanges`. -/
theorem processHandMarkerFeedback_eq {S : Type} [OfScientific S] [Neg S]
    (env : Backend S) (self : JacoInteractiveManipulation S)
    (feedback : InteractiveMarkerFeedback S) :
    self.processHandMarkerFeedback env feedback =
      { jim := { (dispatchHandMarkerFeedback env self feedback).jim with
                 imServer :=
                   (dispatchHandMarkerFeedback env self feedback).jim.imServer.applyChanges }
        trace := (dispatchHandMarkerFeedback env self feedback).trace ++ [Action.imApplyChanges]
        thrown := none } := by
  have ht := dispatch_thrown env self feedback
  simp only [JacoInteractiveManipulation.processHandMarkerFeedback, ht]

/-- C9.  For every object state, every event and every backend, one call of
`processHandMarkerFeedback` returns normally, its trace contains exactly one
`applyChanges` call, that call is the last one of the trace, and the marker
server afterwards is the prior server with its staged changes committed. -/
theorem processHandMarkerFeedback_applies_changes_once {S : Type} [OfScientific S] [Neg S]
    (env : Backend S) (self : JacoInteractiveManipulation S)
    (feedback : InteractiveMarkerFeedback S) :
    (self.processHandMarkerFeedback env feedback).thrown = none
    ∧ applyChangesCount (self.processHandMarkerFeedback env feedback).trace = 1
    ∧ (∃ before, (self.processHandMarkerFeedback env feedback).trace
          = before ++ [Action.imApplyChanges]
        ∧ applyChangesCount before = 0)
    ∧ (self.processHandMarkerFeedback env feedback).jim.imServer
        = self.imServer.applyChanges := by
  have hc := dispatch_applyChangesCount env self feedback
  have hf := (dispatch_frame env self feedback).1
  have hcount : ∀ t : List (Action S),
      applyChangesCount (t ++ [Action.imApplyChanges]) = applyChangesCount t + 1 := by
    intro t
    simp [applyChangesCount]
  rw [processHandMarkerFeedback_eq]
  refine ⟨rfl, ?_, ⟨_, rfl, hc⟩, ?_⟩
  · show applyChangesCount (_ ++ [Action.imApplyChanges]) = 1
    rw [hcount, hc]
  · show (dispatchHandMarkerFeedback env self feedback).jim.imServer.applyChanges = _
    rw [hf]

/-- C1.  On a POSE_UPDATE event the Cartesian commands published by
`processHandMarkerFeedback` are: the single position command built from the
event pose and the returned roll, pitch, yaw when the lock flag is false,
the marker is "jaco_hand_marker", the control is not
"jaco_hand_origin_marker" and the conversion call succeeds; none otherwise. -/
theorem processHandMarkerFeedback_pose_update {S : Type} [OfScientific S] [Neg S]
    (env : Backend S) (self : JacoInteractiveManipulation S)
    (feedback : InteractiveMarkerFeedback S)
    (hevent : feedback.event_type = POSE_UPDATE) :
    publishedCommands (self.processHandMarkerFeedback env feedback).trace =
      if self.lockPose = false ∧ feedback.marker_name = "jaco_hand_marker"
          ∧ feedback.control_name ≠ "jaco_hand_origin_marker" then
        match env.quaternionToEuler feedback.pose.orientation with
        | some response =>
          [{ position := true, armCommand := true, fingerCommand := false, repeat_ := false,
             arm := { linear := { x := feedback.pose.position.x,
                                  y := feedback.pose.position.y,
                                  z := feedback.pose.position.z },
                      angular := { x := response.roll,
                                   y := response.pitch,
                                   z := response.yaw } } }]
        | none => []
      else [] := by
  rw [processHandMarkerFeedback_eq]
  unfold dispatchHandMarkerFeedback
  simp only [hevent, POSE_UPDATE, BUTTON_CLICK, MENU_SELECT]
  cases hq : env.quaternionToEuler feedback.pose.orientation <;>
    cases hl : self.lockPose <;>
    by_cases hm : feedback.marker_name = "jaco_hand_marker" <;>
    by_cases hc : feedback.control_name = "jaco_hand_origin_marker" <;>
    simp [publishedCommands, hm, hc]

/-- C1, at a sample drag event on an unlocked object. -/
theorem processHandMarkerFeedback_pose_update_witness :
    samplePoseUpdate.event_type = POSE_UPDATE
    ∧ publishedCommands (sampleJim.processHandMarkerFeedback sampleBackend samplePoseUpdate).trace =
      if sampleJim.lockPose = false ∧ samplePoseUpdate.marker_name = "jaco_hand_marker"
          ∧ samplePoseUpdate.control_name ≠ "jaco_hand_origin_marker" then
        match sampleBackend.quaternionToEuler samplePoseUpdate.pose.orientation with
        | some response =>
          [{ position := true, armCommand := true, fingerCommand := false, repeat_ := false,
             arm := { linear := { x := samplePoseUpdate.pose.position.x,
                                  y := samplePoseUpdate.pose.position.y,
                                  z := samplePoseUpdate.pose.position.z },
                      angular := { x := response.roll,
                                   y := response.pitch,
                                   z := response.yaw } } }]
        | none => []
      else [] :=
  ⟨rfl, processHandMarkerFeedback_pose_update sampleBackend sampleJim samplePoseUpdate rfl⟩

/-- C2.  Whatever the prior state, the lock flag is true after a BUTTON_CLICK
and after a MOUSE_UP event on "jaco_hand_marker", and false after a
MOUSE_DOWN event (on any marker); the constructor leaves it false. -/
theorem lockPose_after_click_release_press {S : Type} [OfScientific S] [Neg S] [Mul S]
    (env : Backend S) (self : JacoInteractiveManipulation S)
    (feedback : InteractiveMarkerFeedback S) :
    (self.processHandMarkerFeedback env
        { feedback with event_type := BUTTON_CLICK,
                        marker_name := "jaco_hand_marker" }).jim.lockPose = true
    ∧ (self.processHandMarkerFeedback env
        { feedback with event_type := MOUSE_UP,
                        marker_name := "jaco_hand_marker" }).jim.lockPose = true
    ∧ (self.processHandMarkerFeedback env
        { feedback with event_type := MOUSE_DOWN }).jim.lockPose = false
    ∧ (JacoInteractiveManipulation.construct env).jim.lockPose = false
    ∧ (JacoInteractiveManipulation.construct env).thrown = none := by
  refine ⟨?_, ?_, ?_, ?_, ?_⟩
  · rw [processHandMarkerFeedback_eq]
    cases h : env.eraseTrajectories <;>
      simp [dispatchHandMarkerFeedback, JacoInteractiveManipulation.sendStopCommand, h]
  · rw [processHandMarkerFeedback_eq]
    cases h : env.eraseTrajectories <;>
      simp [dispatchHandMarkerFeedback, JacoInteractiveManipulation.sendStopCommand, h,
        MOUSE_UP, BUTTON_CLICK, MENU_SELECT, POSE_UPDATE, MOUSE_DOWN]
  · rw [processHandMarkerFeedback_eq]
    simp [dispatchHandMarkerFeedback, MOUSE_UP, BUTTON_CLICK, MENU_SELECT, POSE_UPDATE,
      MOUSE_DOWN]
  · simp [JacoInteractiveManipulation.construct, JacoInteractiveManipulation.makeHandMarker,
      fkRequestLoop]
  · simp [JacoInteractiveManipulation.construct, JacoInteractiveManipulation.makeHandMarker,
      fkRequestLoop]

/-- The retract target is the six literals of the source, in order. -/
theorem retractJoints_eq {S : Type} [OfScientific S] [Neg S] :
    (retractJoints : List S) = [-2.57, 1.39, 0.377, -0.084, 0.515, -1.745] := by
  simp [retractJoints, List.replicate]

/-- C4.  On a MENU_SELECT event on "jaco_hand_marker" with entry id 5 or 6,
`processHandMarkerFeedback` makes exactly these calls, in this order:
cancel-all on the grasp client, cancel-all on the pickup client, one home
goal, one wait on the home client, `applyChanges`.  For id 5 the goal has
`retract = false` and the wait is 10 s; for id 6 the goal has
`retract = true` with the six-element joint target
`-2.57, 1.39, 0.377, -0.084, 0.515, -1.745` and the wait is 15 s. -/
theorem processHandMarkerFeedback_home_retract {S : Type} [OfScientific S] [Neg S]
    (env : Backend S) (self : JacoInteractiveManipulation S)
    (feedback : InteractiveMarkerFeedback S)
    (hevent : feedback.event_type = MENU_SELECT)
    (hmarker : feedback.marker_name = "jaco_hand_marker")
    (hid : feedback.menu_entry_id = 5 ∨ feedback.menu_entry_id = 6) :
    (self.processHandMarkerFeedback env feedback).trace =
      [Action.cancelAllGoals ActionClient.acGrasp,
       Action.cancelAllGoals ActionClient.acPickup,
       Action.sendHomeGoal
         (if feedback.menu_entry_id = 5 then
            { retract := false
              retractPosition :=
                { position := false, armCommand := false, fingerCommand := false,
                  repeat_ := false, joints := [] } }
          else
            { retract := true
              retractPosition :=
                { position := true, armCommand := true, fingerCommand := false,
                  repeat_ := false,
                  joints := ([-2.57, 1.39, 0.377, -0.084, 0.515, -1.745] : List S) } }),
       Action.waitForResult ActionClient.acHome
         (if feedback.menu_entry_id = 5 then (10.0 : S) else (15.0 : S)),
       Action.imApplyChanges] := by
  rw [processHandMarkerFeedback_eq]
  unfold dispatchHandMarkerFeedback
  rcases hid with h | h <;>
    simp [hevent, hmarker, h, MENU_SELECT, BUTTON_CLICK, retractJoints_eq,
      AngularCommand.default]

/-- C4, at a sample "Retract" selection. -/
theorem processHandMarkerFeedback_home_retract_witness :
    sampleRetractSelect.event_type = MENU_SELECT
    ∧ sampleRetractSelect.marker_name = "jaco_hand_marker"
    ∧ (sampleRetractSelect.menu_entry_id = 5 ∨ sampleRetractSelect.menu_entry_id = 6)
    ∧ (sampleJim.processHandMarkerFeedback sampleBackend sampleRetractSelect).trace =
      [Action.cancelAllGoals ActionClient.acGrasp,
       Action.cancelAllGoals ActionClient.acPickup,
       Action.sendHomeGoal
         (if sampleRetractSelect.menu_entry_id = 5 then
            { retract := false
              retractPosition :=
                { position := false, armCommand := false, fingerCommand := false,
                  repeat_ := false, joints := [] } }
          else
            { retract := true
              retractPosition :=
                { position := true, armCommand := true, fingerCommand := false,
                  repeat_ := false,
                  joints := ([-2.57, 1.39, 0.377, -0.084, 0.515, -1.745] : List Rat) } }),
       Action.waitForResult ActionClient.acHome
         (if sampleRetractSelect.menu_entry_id = 5 then (10.0 : Rat) else (15.0 : Rat)),
       Action.imApplyChanges] :=
  ⟨rfl, rfl, Or.inr rfl,
    processHandMarkerFeedback_home_retract sampleBackend sampleJim sampleRetractSelect
      rfl rfl (Or.inr rfl)⟩

/-- C5.  On a MENU_SELECT event on "jaco_hand_marker" with entry id 2 or 3,
`processHandMarkerFeedback` makes exactly two calls: one grasp goal, with
`closeGripper = true` for id 2 and `false` for id 3 and
`limitFingerVelocity = false`, then `applyChanges`.  So exactly one grasp
goal is sent, and no cancel request, pickup goal, home goal or Cartesian
command. -/
theorem processHandMarkerFeedback_grasp_release {S : Type} [OfScientific S] [Neg S]
    (env : Backend S) (self : JacoInteractiveManipulation S)
    (feedback : InteractiveMarkerFeedback S)
    (hevent : feedback.event_type = MENU_SELECT)
    (hmarker : feedback.marker_name = "jaco_hand_marker")
    (hid : feedback.menu_entry_id = 2 ∨ feedback.menu_entry_id = 3) :
    (self.processHandMarkerFeedback env feedback).trace =
      [Action.sendGraspGoal
         { closeGripper := decide (feedback.menu_entry_id = 2), limitFingerVelocity := false },
       Action.imApplyChanges]
    ∧ graspGoals (self.processHandMarkerFeedback env feedback).trace =
      [{ closeGripper := decide (feedback.menu_entry_id = 2), limitFingerVelocity := false }]
    ∧ ∀ a ∈ (self.processHandMarkerFeedback env feedback).trace,
        isCancelPickupHomeOrCommand a = false := by
  have htrace : (self.processHandMarkerFeedback env feedback).trace =
      [Action.sendGraspGoal
         { closeGripper := decide (feedback.menu_entry_id = 2), limitFingerVelocity := false },
       Action.imApplyChanges] := by
    rw [processHandMarkerFeedback_eq]
    unfold dispatchHandMarkerFeedback
    rcases hid with h | h <;> simp [hevent, hmarker, h, MENU_SELECT, BUTTON_CLICK]
  rw [htrace]
  refine ⟨rfl, ?_, ?_⟩
  · simp [graspGoals]
  · intro a ha
    simp only [List.mem_cons, List.mem_singleton, List.not_mem_nil, or_false] at ha
    rcases ha with rfl | rfl <;> rfl

/-- C5, at a sample "Grasp" selection. -/
theorem processHandMarkerFeedback_grasp_release_witness :
    sampleGraspSelect.event_type = MENU_SELECT
    ∧ sampleGraspSelect.marker_name = "jaco_hand_marker"
    ∧ (sampleGraspSelect.menu_entry_id = 2 ∨ sampleGraspSelect.menu_entry_id = 3)
    ∧ ((sampleJim.processHandMarkerFeedback sampleBackend sampleGraspSelect).trace =
        [Action.sendGraspGoal
           { closeGripper := decide (sampleGraspSelect.menu_entry_id = 2),
             limitFingerVelocity := false },
         Action.imApplyChanges]
      ∧ graspGoals (sampleJim.processHandMarkerFeedback sampleBackend sampleGraspSelect).trace =
        [{ closeGripper := decide (sampleGraspSelect.menu_entry_id = 2),
           limitFingerVelocity := false }]
      ∧ ∀ a ∈ (sampleJim.processHandMarkerFeedback sampleBackend sampleGraspSelect).trace,
          isCancelPickupHomeOrCommand a = false) :=
  ⟨rfl, rfl, Or.inl rfl,
    processHandMarkerFeedback_grasp_release sampleBackend sampleJim sampleGraspSelect
      rfl rfl (Or.inl rfl)⟩

/-! ### Forward kinematics: `updateMarkerPosition` and `makeHandMarker` -/

/-- On a six-entry cache the request loop ends normally with the six cached
values, in order. -/
theorem fkRequestLoop_six {S : Type} (joints : List S) (h : joints.length = 6) :
    fkRequestLoop joints 6 0 [] = Except.ok joints := by
  obtain ⟨a, b, c, d, e, f, rfl⟩ := list_length_six joints h
  simp [fkRequestLoop]

/-- Staging a pose for a committed marker and committing shows that pose. -/
theorem setPose_applyChanges_displayedPose {S : Type} (srv : InteractiveMarkerServer S)
    (name : String) (prior pose : Pose S)
    (h : srv.displayedPose name = some prior) :
    (srv.setPose name pose).1.applyChanges.displayedPose name = some pose := by
  unfold InteractiveMarkerServer.displayedPose at h
  cases hm : srv.marker_contexts name with
  | none => simp [hm] at h
  | some m =>
    cases hp : srv.pending_updates name with
    | none =>
      simp [InteractiveMarkerServer.setPose, InteractiveMarkerServer.applyChanges,
        InteractiveMarkerServer.displayedPose, hm, hp]
    | some u =>
      rcases u with ⟨ty, im⟩
      cases ty <;>
        simp [InteractiveMarkerServer.setPose, InteractiveMarkerServer.applyChanges,
          InteractiveMarkerServer.displayedPose, hm, hp]

/-- On a six-entry cache `updateMarkerPosition` is the request with the
cached values followed by the two branches on its result. -/
theorem updateMarkerPosition_eq {S : Type}
    (env : Backend S) (self : JacoInteractiveManipulation S)
    (hcache : self.joints.length = 6) :
    self.updateMarkerPosition env =
      match env.jacoFk self.joints with
      | some handPose =>
        { jim := { self with
                   imServer :=
                     (self.imServer.setPose "jaco_hand_marker" handPose).1.applyChanges }
          trace := [Action.callJacoFk self.joints,
                    Action.imSetPose "jaco_hand_marker" handPose, Action.imApplyChanges]
          thrown := none }
      | none =>
        { jim := self
          trace := [Action.callJacoFk self.joints,
                    Action.rosInfo "Failed to call forward kinematics service"]
          thrown := none } := by
  have hreq := fkRequestLoop_six self.joints hcache
  unfold JacoInteractiveManipulation.updateMarkerPosition
  simp only [hreq]

/-- On a six-entry cache `makeHandMarker` is the request with the cached
values followed by the registration of the marker built around the result. -/
theorem makeHandMarker_eq {S : Type} [OfScientific S] [Mul S]
    (env : Backend S) (self : JacoInteractiveManipulation S)
    (hcache : self.joints.length = 6) :
    self.makeHandMarker env =
      { jim := { self with
                 menuHandler := handMenu self.menuHandler
                 imServer := self.imServer.insert
                   (handMarker
                     (match env.jacoFk self.joints with
                      | some handPose => handPose
                      | none => { position := { x := 0.0, y := 0.0, z := 0.0 }
                                  orientation := { x := 0.0, y := 0.0, z := 0.0, w := 1.0 } })) }
        trace := [Action.callJacoFk self.joints,
                  Action.imInsert
                    (handMarker
                      (match env.jacoFk self.joints with
                       | some handPose => handPose
                       | none => { position := { x := 0.0, y := 0.0, z := 0.0 }
                                   orientation := { x := 0.0, y := 0.0, z := 0.0, w := 1.0 } })),
                  Action.imSetCallback "jaco_hand_marker", Action.menuApply "jaco_hand_marker"]
        thrown := none } := by
  have hreq := fkRequestLoop_six self.joints hcache
  unfold JacoInteractiveManipulation.makeHandMarker
  simp only [hreq]
  rfl

/-- C6.  On a six-entry cache and a registered hand marker showing some
prior pose, `updateMarkerPosition` returns normally and its first call is
the forward-kinematics request carrying the six cached values in order.  If
the call succeeds with pose `P`, the marker's pose is set and committed and
the displayed pose is `P`; if it fails, the object is left as it was (only
a log line follows) and the displayed pose is the prior one. -/
theorem updateMarkerPosition_follows_fk {S : Type}
    (env : Backend S) (self : JacoInteractiveManipulation S) (prior : Pose S)
    (hcache : self.joints.length = 6)
    (hmarker : self.imServer.displayedPose "jaco_hand_marker" = some prior) :
    (self.updateMarkerPosition env).thrown = none
    ∧ (self.updateMarkerPosition env).trace.head? = some (Action.callJacoFk self.joints)
    ∧ (∀ P, env.jacoFk self.joints = some P →
        (self.updateMarkerPosition env).trace =
          [Action.callJacoFk self.joints, Action.imSetPose "jaco_hand_marker" P,
           Action.imApplyChanges]
        ∧ (self.updateMarkerPosition env).jim.imServer.displayedPose "jaco_hand_marker"
            = some P)
    ∧ (env.jacoFk self.joints = none →
        (self.updateMarkerPosition env).trace =
          [Action.callJacoFk self.joints,
           Action.rosInfo "Failed to call forward kinematics service"]
        ∧ (self.updateMarkerPosition env).jim = self
        ∧ (self.updateMarkerPosition env).jim.imServer.displayedPose "jaco_hand_marker"
            = some prior) := by
  rw [updateMarkerPosition_eq env self hcache]
  cases hfk : env.jacoFk self.joints with
  | none =>
    refine ⟨rfl, rfl, ?_, ?_⟩
    · intro P hP
      cases hP
    · intro _
      exact ⟨rfl, rfl, hmarker⟩
  | some Q =>
    refine ⟨rfl, rfl, ?_, ?_⟩
    · intro P hP
      obtain rfl : Q = P := Option.some.inj hP
      exact ⟨rfl, setPose_applyChanges_displayedPose self.imServer "jaco_hand_marker"
        prior Q hmarker⟩
    · intro hP
      cases hP

/-- C8.  On a six-entry cache, `makeHandMarker` returns normally; its calls
are the forward-kinematics request, the insertion of the hand marker, the
callback registration and the menu application; the inserted marker is named
"jaco_hand_marker" and its pose is the returned pose when the call succeeds
and position (0,0,0), orientation (0,0,0,1) when it fails; after the
constructor's `applyChanges` that pose is the displayed one. -/
theorem makeHandMarker_initial_pose {S : Type} [OfScientific S] [Mul S]
    (env : Backend S) (self : JacoInteractiveManipulation S)
    (hcache : self.joints.length = 6) :
    (self.makeHandMarker env).thrown = none
    ∧ ∃ iMarker : InteractiveMarker S,
        (self.makeHandMarker env).trace =
          [Action.callJacoFk self.joints, Action.imInsert iMarker,
           Action.imSetCallback "jaco_hand_marker", Action.menuApply "jaco_hand_marker"]
        ∧ iMarker.name = "jaco_hand_marker"
        ∧ iMarker.pose =
            (match env.jacoFk self.joints with
             | some handPose => handPose
             | none => { position := { x := 0.0, y := 0.0, z := 0.0 }
                         orientation := { x := 0.0, y := 0.0, z := 0.0, w := 1.0 } })
        ∧ (self.makeHandMarker env).jim.imServer.applyChanges.displayedPose "jaco_hand_marker"
            = some iMarker.pose := by
  rw [makeHandMarker_eq env self hcache]
  refine ⟨rfl, _, rfl, rfl, rfl, ?_⟩
  simp [InteractiveMarkerServer.insert, InteractiveMarkerServer.applyChanges,
    InteractiveMarkerServer.displayedPose, handMarker]

/-- C6, at the object as constructed against the sample backend. -/
theorem updateMarkerPosition_follows_fk_witness :
    sampleReadyJim.joints.length = 6
    ∧ sampleReadyJim.imServer.displayedPose "jaco_hand_marker" = some samplePose
    ∧ (sampleReadyJim.updateMarkerPosition failingBackend).thrown = none
    ∧ (sampleReadyJim.updateMarkerPosition failingBackend).trace.head?
        = some (Action.callJacoFk sampleReadyJim.joints)
    ∧ (∀ P, failingBackend.jacoFk sampleReadyJim.joints = some P →
        (sampleReadyJim.updateMarkerPosition failingBackend).trace =
          [Action.callJacoFk sampleReadyJim.joints, Action.imSetPose "jaco_hand_marker" P,
           Action.imApplyChanges]
        ∧ (sampleReadyJim.updateMarkerPosition failingBackend).jim.imServer.displayedPose
            "jaco_hand_marker" = some P)
    ∧ (failingBackend.jacoFk sampleReadyJim.joints = none →
        (sampleReadyJim.updateMarkerPosition failingBackend).trace =
          [Action.callJacoFk sampleReadyJim.joints,
           Action.rosInfo "Failed to call forward kinematics service"]
        ∧ (sampleReadyJim.updateMarkerPosition failingBackend).jim = sampleReadyJim
        ∧ (sampleReadyJim.updateMarkerPosition failingBackend).jim.imServer.displayedPose
            "jaco_hand_marker" = some samplePose) :=
  ⟨by rfl, by rfl,
    updateMarkerPosition_follows_fk failingBackend sampleReadyJim samplePose (by rfl) (by rfl)⟩

/-- C8, at the sample object with a failing forward-kinematics call. -/
theorem makeHandMarker_initial_pose_witness :
    sampleJim.joints.length = 6
    ∧ (sampleJim.makeHandMarker failingBackend).thrown = none
    ∧ ∃ iMarker : InteractiveMarker Rat,
        (sampleJim.makeHandMarker failingBackend).trace =
          [Action.callJacoFk sampleJim.joints, Action.imInsert iMarker,
           Action.imSetCallback "jaco_hand_marker", Action.menuApply "jaco_hand_marker"]
        ∧ iMarker.name = "jaco_hand_marker"
        ∧ iMarker.pose =
            (match failingBackend.jacoFk sampleJim.joints with
             | some handPose => handPose
             | none => { position := { x := 0.0, y := 0.0, z := 0.0 }
                         orientation := { x := 0.0, y := 0.0, z := 0.0, w := 1.0 } })
        ∧ (sampleJim.makeHandMarker failingBackend).jim.imServer.applyChanges.displayedPose
            "jaco_hand_marker" = some iMarker.pose :=
  ⟨by rfl, makeHandMarker_initial_pose failingBackend sampleJim (by rfl)⟩

/-! ### Startup and the cache invariant -/

/-- The constructor returns normally with a six-entry cache of zeros, the
lock flag false, nothing staged, and the hand marker displayed at the pose
chosen by `makeHandMarker`. -/
theorem construct_ready {S : Type} [OfScientific S] [Mul S] (env : Backend S) :
    (JacoInteractiveManipulation.construct env).thrown = none
    ∧ (JacoInteractiveManipulation.construct env).jim.joints = List.replicate 6 (0.0 : S)
    ∧ (JacoInteractiveManipulation.construct env).jim.joints.length = 6
    ∧ (JacoInteractiveManipulation.construct env).jim.lockPose = false
    ∧ (JacoInteractiveManipulation.construct env).jim.imServer.displayedPose "jaco_hand_marker"
        = some (match env.jacoFk (List.replicate 6 (0.0 : S)) with
                | some handPose => handPose
                | none => { position := { x := 0.0, y := 0.0, z := 0.0 }
                            orientation := { x := 0.0, y := 0.0, z := 0.0, w := 1.0 } }) := by
  have hmk := makeHandMarker_eq env
    ({ joints := List.replicate 6 0.0
       lockPose := false
       imServer := InteractiveMarkerServer.empty
       menuHandler := { entries := [] } } : JacoInteractiveManipulation S) (by simp)
  refine ⟨?_, ?_, ?_, ?_, ?_⟩ <;>
    simp only [JacoInteractiveManipulation.construct, hmk] <;>
    simp [InteractiveMarkerServer.insert, InteractiveMarkerServer.applyChanges,
      InteractiveMarkerServer.displayedPose, InteractiveMarkerServer.empty, handMarker]

/-- The handles handed out by `makeHandMarker` on a fresh menu handler:
"Grasp" is 2, "Release" 3, "Pickup" 4, "Home" 5 and "Retract" 6. -/
theorem handMenu_handles :
    (handMenu { entries := [] }).entries.map (fun e => (e.handle, e.title)) =
      [(1, "Fingers"), (2, "Grasp"), (3, "Release"), (4, "Pickup"), (5, "Home"),
       (6, "Retract")] := by
  rfl

/-- The copy loop never changes the number of cache entries. -/
theorem updateJointsLoop_length {D S : Type} (cast : D → S) (position : List D)
    (n i : Nat) (joints : List S) :
    (updateJointsLoop cast position n i joints).1.length = joints.length := by
  induction n generalizing i joints with
  | zero => rfl
  | succ n ih =>
    unfold updateJointsLoop
    cases position[i]? with
    | none => rfl
    | some v =>
      by_cases h : i < joints.length
      · simp only [h, if_true]
        rw [ih]
        simp
      · simp only [h, if_false]

/-- No handler changes the number of cache entries. -/
theorem joints_length_preserved {D S : Type} [OfScientific S] [Neg S] (cast : D → S)
    (env : Backend S) (self : JacoInteractiveManipulation S) (msg : JointState D)
    (feedback : InteractiveMarkerFeedback S) :
    (self.updateJoints cast msg).jim.joints.length = self.joints.length
    ∧ (self.processHandMarkerFeedback env feedback).jim.joints = self.joints
    ∧ (self.updateMarkerPosition env).jim.joints = self.joints := by
  refine ⟨updateJointsLoop_length cast msg.position 6 0 self.joints, ?_, ?_⟩
  · rw [processHandMarkerFeedback_eq]
    exact (dispatch_frame env self feedback).2.1
  · unfold JacoInteractiveManipulation.updateMarkerPosition
    split
    · rfl
    · split <;> rfl

end JacoInteraction
